import Mathlib

/-!
Verification of the LPSentinel recommendation and degradation-detection
engine, embedded from the three source variants:
src/long.py (stable weekly), src/mid.py (mid-term), src/short.py (short term).

Modelling conventions:
* Raw JSON numeric fields become `RawField` (absent or JSON null, a number,
  or a present non-numeric value); the helper `num` mirrors the Python
  helper `num` that coerces anything non-numeric to 0.0.
* Python float arithmetic is modelled exactly over the rationals.
* `math.log10` is modelled by an uninterpreted parameter `lg : Rat -> Rat`
  passed to the scoring and selection functions; no claim below depends on
  the numeric values of the logarithm, and concrete evaluations pick inputs
  whose TVL and volume coincide so that the log terms cancel for any `lg`.
* Python `list.sort(key=..., reverse=True)` is a stable descending sort by
  key; it is modelled by `List.insertionSort` with the relation `byDesc`,
  which computes the same list as any stable sort under a total preorder.
* Reason strings are modelled by the inductive `Reason` carrying the same
  numeric payload that the source interpolates into the message text.
-/

/-- A raw JSON field of a pool record: `missing` covers both an absent key
and an explicit JSON null (Python `None`); `number` is an int or float;
`nonNumber` is any other present value. -/
inductive RawField
  | missing
  | number (q : ℚ)
  | nonNumber
deriving DecidableEq

/-- Embeds `num` (identical in all three files): a numeric value passes
through, anything else is read as 0.0. -/
def num (x : RawField) : ℚ :=
  match x with
  | RawField.number q => q
  | _ => 0

/-- A raw pool record from the universe fetch, with exactly the fields the
engine reads.  `il7d` is kept as `Option ℚ` because every reading of it
first checks `is not None` and then applies `float`. -/
structure Pool where
  pool : Option String
  chain : Option String
  project : Option String
  symbol : Option String
  tvlUsd : RawField
  volumeUsd7d : RawField
  apyBase : RawField
  apyReward : RawField
  apy : RawField
  il7d : Option ℚ
deriving DecidableEq

/-- A point-in-time snapshot, as built by `pool_snapshot` in each variant. -/
structure Snap where
  pool : Option String
  chain : Option String
  project : Option String
  symbol : Option String
  tvlUsd : ℚ
  volumeUsd7d : ℚ
  il7d : Option ℚ
  netApy : ℚ
  apy : ℚ
  ts : ℤ
deriving DecidableEq

/-- The separator characters collapsed by `tokenize` (identical in all
three files). -/
def SEPS : List Char := ['-', '/', ' ', '_', '+']

/-- The per-character effect of `tokenize`: uppercase, then map each of the
five separators to the delimiter bar. -/
def tokChar (c : Char) : Char :=
  let u := c.toUpper
  if u ∈ SEPS then '|' else u

/-- Embeds `tokenize` (identical in all three files): `(symbol or "")`
handles a missing symbol, then uppercase and collapse separators.  The
sequential single-character `str.replace` calls of the source are exactly a
character-wise map. -/
def tokenize (symbol : Option String) : List Char :=
  ((symbol.getD "").toList).map tokChar

/-- Counts how many hints of `hints` occur as substrings of the tokenized
symbol, embedding `sum(h in s for h in HINTS)`. -/
def hintCount (hints : List String) (symbol : Option String) : Nat :=
  hints.countP (fun h => decide (h.toList <:+: tokenize symbol))

/-- The chain allow-list (identical in all three files). -/
def CHAINS : List String := ["Ethereum", "Arbitrum", "Optimism", "Base", "Solana", "BSC"]

/-- How many pools to recommend (identical in all three files). -/
def RECOMMEND_N : Nat := 5

/-- A selection policy dict (`*_FILTERS` in the sources). -/
structure Filters where
  min_tvl : ℚ
  min_vol7d : ℚ
  max_apy : ℚ
  max_il7d : ℚ
  allowed_types : List String
deriving DecidableEq

/-- A tank-rule dict without an absolute floor (mid.py, short.py). -/
structure TankRules where
  max_tvl_drop_pct : ℚ
  max_vol7d_drop_pct : ℚ
  max_il7d : ℚ
  max_net_apy_drop_pct : ℚ
deriving DecidableEq

/-- The tank-rule dict of long.py, which adds `min_tvl_absolute`. -/
structure TankRulesWithFloor where
  max_tvl_drop_pct : ℚ
  max_vol7d_drop_pct : ℚ
  max_il7d : ℚ
  max_net_apy_drop_pct : ℚ
  min_tvl_absolute : ℚ
deriving DecidableEq

/-- The chain test of `filter_pool` (identical in all three files):
`p.get("chain") not in CHAINS` rejects, so a missing chain rejects. -/
def chain_ok (p : Pool) : Bool :=
  match p.chain with
  | some c => CHAINS.contains c
  | none => false

/-- The IL test shared by the filters and tank checks:
`x is not None and float(x) > bound`. -/
def il_exceeds (il : Option ℚ) (bound : ℚ) : Bool :=
  match il with
  | some v => decide (bound < v)
  | none => false

/-- Degradation reasons; each constructor carries the numeric payload that
the source interpolates into its reason string. -/
inductive Reason
  | tvlLow (cur : ℚ)
  | tvlDrop (d : ℚ)
  | volDrop (d : ℚ)
  | ilSpike (v : ℚ)
  | apyDrop (d : ℚ)
  | priceExit (d : Option ℚ)
  | priceWatch (d : Option ℚ)
deriving DecidableEq

/-- Embeds the pool-index dict built in every main loop
(`build_pool_index` in long.py; inline comprehensions in mid.py and
short.py): keys are truthy pool identifiers, later records overwrite
earlier ones, lookup returns the record stored under `pid`. -/
def build_pool_index (pools : List Pool) (pid : String) : Option Pool :=
  pools.foldl
    (fun acc q =>
      match q.pool with
      | some s => if s ≠ "" ∧ s = pid then some q else acc
      | none => acc)
    none

/-- Descending order by a score key; the relation under which
`List.insertionSort` computes Python `sort(key=sc, reverse=True)`. -/
def byDesc (sc : Pool → ℚ) (p q : Pool) : Prop := sc q ≤ sc p

instance (sc : Pool → ℚ) : DecidableRel (byDesc sc) :=
  fun p q => inferInstanceAs (Decidable (sc q ≤ sc p))

instance (sc : Pool → ℚ) : IsTotal Pool (byDesc sc) :=
  ⟨fun p q => le_total (sc q) (sc p)⟩

instance (sc : Pool → ℚ) : IsTrans Pool (byDesc sc) :=
  ⟨fun _ _ _ h₁ h₂ => le_trans h₂ h₁⟩

namespace Long

/-- Stable hints of long.py. -/
def STABLE_HINTS : List String :=
  ["USDC", "USDT", "DAI", "LUSD", "FRAX", "CRVUSD", "PYUSD", "USDE",
   "USD0", "USDB", "GUSD", "TUSD", "SUSD"]

/-- Stable-only selection filters of long.py. -/
def STABLE_FILTERS : Filters :=
  { min_tvl := 50000000
    min_vol7d := 3000000
    max_apy := 20
    max_il7d := 0.5
    allowed_types := ["stable-stable"] }

/-- Reward haircut of long.py. -/
def REWARD_HAIRCUT : ℚ := 0.25

/-- Tank rules of long.py (including the absolute TVL floor). -/
def TANK_RULES : TankRulesWithFloor :=
  { max_tvl_drop_pct := 20
    max_vol7d_drop_pct := 50
    max_il7d := 1
    max_net_apy_drop_pct := 60
    min_tvl_absolute := 20000000 }

/-- Stable-hint count inside long.py `classify`. -/
def stableCount (symbol : Option String) : Nat := hintCount STABLE_HINTS symbol

/-- Embeds long.py `classify`: two or more stable hints give stable-stable,
everything else is other. -/
def classify (symbol : Option String) : String :=
  if 2 ≤ stableCount symbol then "stable-stable" else "other"

/-- Embeds long.py `net_apy`. -/
def net_apy (p : Pool) : ℚ :=
  let base := num p.apyBase
  let rew := num p.apyReward
  if p.apyBase ≠ RawField.missing ∨ p.apyReward ≠ RawField.missing then
    base + REWARD_HAIRCUT * rew
  else num p.apy

/-- Embeds long.py `score_stable`; `lg` models `math.log10`. -/
def score_stable (lg : ℚ → ℚ) (p : Pool) : ℚ :=
  let tvl := max (num p.tvlUsd) 1
  let vol7d := max (num p.volumeUsd7d) 1
  let net := net_apy p
  0.5 * net + lg tvl + 0.7 * lg vol7d

/-- Embeds long.py `pool_snapshot`; `now` models `now_ts()`. -/
def pool_snapshot (now : ℤ) (p : Pool) : Snap :=
  { pool := p.pool
    chain := p.chain
    project := p.project
    symbol := p.symbol
    tvlUsd := num p.tvlUsd
    volumeUsd7d := num p.volumeUsd7d
    il7d := p.il7d
    netApy := net_apy p
    apy := num p.apy
    ts := now }

/-- Embeds long.py `filter_pool` (condition order as in the source). -/
def filter_pool (p : Pool) (rules : Filters) : Bool :=
  if !(chain_ok p) then false
  else if !(rules.allowed_types.contains (classify p.symbol)) then false
  else if num p.tvlUsd < rules.min_tvl then false
  else if num p.volumeUsd7d < rules.min_vol7d then false
  else if rules.max_apy < num p.apy then false
  else if il_exceeds p.il7d rules.max_il7d then false
  else true

/-- Embeds long.py `pick_stable_pools`. -/
def pick_stable_pools (lg : ℚ → ℚ) (pools : List Pool) : List Pool :=
  let cands := pools.filter (fun p => filter_pool p STABLE_FILTERS)
  (cands.insertionSort (byDesc (score_stable lg))).take RECOMMEND_N

/-- Embeds long.py `tank_reasons`; the sequential appends of the source
become list concatenation in the same order. -/
def tank_reasons (prev cur : Snap) : List Reason :=
  (if 0 < cur.tvlUsd ∧ cur.tvlUsd < TANK_RULES.min_tvl_absolute then
      [Reason.tvlLow cur.tvlUsd]
    else []) ++
  (if 0 < prev.tvlUsd ∧
      TANK_RULES.max_tvl_drop_pct ≤ (prev.tvlUsd - cur.tvlUsd) / prev.tvlUsd * 100 then
      [Reason.tvlDrop ((prev.tvlUsd - cur.tvlUsd) / prev.tvlUsd * 100)]
    else []) ++
  (if 0 < prev.volumeUsd7d ∧
      TANK_RULES.max_vol7d_drop_pct ≤
        (prev.volumeUsd7d - cur.volumeUsd7d) / prev.volumeUsd7d * 100 then
      [Reason.volDrop ((prev.volumeUsd7d - cur.volumeUsd7d) / prev.volumeUsd7d * 100)]
    else []) ++
  (match cur.il7d with
    | some v => if TANK_RULES.max_il7d < v then [Reason.ilSpike v] else []
    | none => []) ++
  (if 0 < prev.netApy ∧
      TANK_RULES.max_net_apy_drop_pct ≤ (prev.netApy - cur.netApy) / prev.netApy * 100 then
      [Reason.apyDrop ((prev.netApy - cur.netApy) / prev.netApy * 100)]
    else [])

end Long

namespace Mid

/-- Stable hints of mid.py. -/
def STABLE_HINTS : List String :=
  ["USDC", "USDT", "DAI", "LUSD", "FRAX", "CRVUSD", "PYUSD", "USDE"]

/-- Base hints of mid.py. -/
def BASE_HINTS : List String :=
  ["ETH", "WETH", "BTC", "WBTC", "STETH", "CBETH", "SOL", "BNB"]

/-- Primary (strict) filters of mid.py. -/
def PRIMARY_FILTERS : Filters :=
  { min_tvl := 100000000
    min_vol7d := 25000000
    max_apy := 30
    max_il7d := 1
    allowed_types := ["stable-stable", "base-base"] }

/-- Fallback (looser) filters of mid.py. -/
def FALLBACK_FILTERS : Filters :=
  { min_tvl := 75000000
    min_vol7d := 15000000
    max_apy := 35
    max_il7d := 1.5
    allowed_types := ["stable-stable", "base-base", "stable-base"] }

/-- Reward haircut of mid.py. -/
def REWARD_HAIRCUT : ℚ := 0.25

/-- Tank rules of mid.py. -/
def TANK_RULES : TankRules :=
  { max_tvl_drop_pct := 25
    max_vol7d_drop_pct := 40
    max_il7d := 2
    max_net_apy_drop_pct := 50 }

/-- Stable-hint count inside mid.py `classify`. -/
def stableCount (symbol : Option String) : Nat := hintCount STABLE_HINTS symbol

/-- Base-hint count inside mid.py `classify`. -/
def baseCount (symbol : Option String) : Nat := hintCount BASE_HINTS symbol

/-- Embeds mid.py `classify` (four categories, checked in order). -/
def classify (symbol : Option String) : String :=
  if 2 ≤ stableCount symbol ∧ baseCount symbol = 0 then "stable-stable"
  else if 1 ≤ stableCount symbol ∧ 1 ≤ baseCount symbol then "stable-base"
  else if 2 ≤ baseCount symbol ∧ stableCount symbol = 0 then "base-base"
  else "exotic"

/-- Embeds mid.py `net_apy`. -/
def net_apy (p : Pool) : ℚ :=
  let base := num p.apyBase
  let rew := num p.apyReward
  if p.apyBase ≠ RawField.missing ∨ p.apyReward ≠ RawField.missing then
    base + REWARD_HAIRCUT * rew
  else num p.apy

/-- Embeds mid.py `score`; `lg` models `math.log10`. -/
def score (lg : ℚ → ℚ) (p : Pool) : ℚ :=
  0.6 * net_apy p + lg (max (num p.tvlUsd) 1) + lg (max (num p.volumeUsd7d) 1)

/-- Embeds mid.py `pool_snapshot`; `now` models `now_ts()`. -/
def pool_snapshot (now : ℤ) (p : Pool) : Snap :=
  { pool := p.pool
    chain := p.chain
    project := p.project
    symbol := p.symbol
    tvlUsd := num p.tvlUsd
    volumeUsd7d := num p.volumeUsd7d
    il7d := p.il7d
    netApy := net_apy p
    apy := num p.apy
    ts := now }

/-- Embeds mid.py `filter_pool` (condition order as in the source). -/
def filter_pool (p : Pool) (rules : Filters) : Bool :=
  if !(chain_ok p) then false
  else if num p.tvlUsd < rules.min_tvl then false
  else if num p.volumeUsd7d < rules.min_vol7d then false
  else if rules.max_apy < num p.apy then false
  else if il_exceeds p.il7d rules.max_il7d then false
  else if !(rules.allowed_types.contains (classify p.symbol)) then false
  else true

/-- Embeds mid.py `pick_pools`: sort the primary and fallback candidate
lists by score descending, then top up the primary picks from the head of
the fallback list (note: without removing pools already picked). -/
def pick_pools (lg : ℚ → ℚ) (pools : List Pool) : List Pool :=
  let primary := (pools.filter (fun p => filter_pool p PRIMARY_FILTERS)).insertionSort
    (byDesc (score lg))
  let fallback := (pools.filter (fun p => filter_pool p FALLBACK_FILTERS)).insertionSort
    (byDesc (score lg))
  let picks :=
    if primary.length < RECOMMEND_N then
      primary ++ fallback.take (RECOMMEND_N - primary.length)
    else primary
  picks.take RECOMMEND_N

/-- Embeds mid.py `tank_reasons`. -/
def tank_reasons (prev cur : Snap) : List Reason :=
  (if 0 < prev.tvlUsd ∧
      TANK_RULES.max_tvl_drop_pct ≤ (prev.tvlUsd - cur.tvlUsd) / prev.tvlUsd * 100 then
      [Reason.tvlDrop ((prev.tvlUsd - cur.tvlUsd) / prev.tvlUsd * 100)]
    else []) ++
  (if 0 < prev.volumeUsd7d ∧
      TANK_RULES.max_vol7d_drop_pct ≤
        (prev.volumeUsd7d - cur.volumeUsd7d) / prev.volumeUsd7d * 100 then
      [Reason.volDrop ((prev.volumeUsd7d - cur.volumeUsd7d) / prev.volumeUsd7d * 100)]
    else []) ++
  (match cur.il7d with
    | some v => if TANK_RULES.max_il7d < v then [Reason.ilSpike v] else []
    | none => []) ++
  (if 0 < prev.netApy ∧
      TANK_RULES.max_net_apy_drop_pct ≤ (prev.netApy - cur.netApy) / prev.netApy * 100 then
      [Reason.apyDrop ((prev.netApy - cur.netApy) / prev.netApy * 100)]
    else [])

end Mid

namespace Short

/-- Stable hints of short.py (mid.py minus PYUSD). -/
def STABLE_HINTS : List String :=
  ["USDC", "USDT", "DAI", "LUSD", "FRAX", "CRVUSD", "USDE"]

/-- Base hints of short.py. -/
def BASE_HINTS : List String :=
  ["ETH", "WETH", "BTC", "WBTC", "STETH", "CBETH", "SOL", "BNB"]

/-- Selection filters of short.py. -/
def SHORT_FILTERS : Filters :=
  { min_tvl := 30000000
    min_vol7d := 20000000
    max_apy := 80
    max_il7d := 3
    allowed_types := ["stable-base", "base-base"] }

/-- Reward haircut of short.py. -/
def REWARD_HAIRCUT : ℚ := 0.20

/-- Tank rules of short.py. -/
def TANK_RULES : TankRules :=
  { max_tvl_drop_pct := 20
    max_vol7d_drop_pct := 30
    max_il7d := 3.5
    max_net_apy_drop_pct := 40 }

/-- Stable-hint count inside short.py `classify`. -/
def stableCount (symbol : Option String) : Nat := hintCount STABLE_HINTS symbol

/-- Base-hint count inside short.py `classify`. -/
def baseCount (symbol : Option String) : Nat := hintCount BASE_HINTS symbol

/-- Embeds short.py `classify`: note there is no stable-stable branch in
this variant. -/
def classify (symbol : Option String) : String :=
  if 1 ≤ stableCount symbol ∧ 1 ≤ baseCount symbol then "stable-base"
  else if 2 ≤ baseCount symbol ∧ stableCount symbol = 0 then "base-base"
  else "other"

/-- Embeds short.py `net_apy`. -/
def net_apy (p : Pool) : ℚ :=
  let base := num p.apyBase
  let rew := num p.apyReward
  if p.apyBase ≠ RawField.missing ∨ p.apyReward ≠ RawField.missing then
    base + REWARD_HAIRCUT * rew
  else num p.apy

/-- Embeds short.py `score_short`; `lg` models `math.log10`. -/
def score_short (lg : ℚ → ℚ) (p : Pool) : ℚ :=
  0.7 * net_apy p + lg (max (num p.tvlUsd) 1) + lg (max (num p.volumeUsd7d) 1)

/-- Embeds short.py `pool_snapshot`; `now` models `now_ts()`. -/
def pool_snapshot (now : ℤ) (p : Pool) : Snap :=
  { pool := p.pool
    chain := p.chain
    project := p.project
    symbol := p.symbol
    tvlUsd := num p.tvlUsd
    volumeUsd7d := num p.volumeUsd7d
    il7d := p.il7d
    netApy := net_apy p
    apy := num p.apy
    ts := now }

/-- Embeds short.py `filter_pool` (reads the global SHORT_FILTERS). -/
def filter_pool (p : Pool) : Bool :=
  if !(chain_ok p) then false
  else if !(SHORT_FILTERS.allowed_types.contains (classify p.symbol)) then false
  else if num p.tvlUsd < SHORT_FILTERS.min_tvl then false
  else if num p.volumeUsd7d < SHORT_FILTERS.min_vol7d then false
  else if SHORT_FILTERS.max_apy < num p.apy then false
  else if il_exceeds p.il7d SHORT_FILTERS.max_il7d then false
  else true

/-- Embeds short.py `pick_short_pools`. -/
def pick_short_pools (lg : ℚ → ℚ) (pools : List Pool) : List Pool :=
  let cands := pools.filter filter_pool
  (cands.insertionSort (byDesc (score_short lg))).take RECOMMEND_N

/-- Embeds short.py `tank_reasons`. -/
def tank_reasons (prev cur : Snap) : List Reason :=
  (if 0 < prev.tvlUsd ∧
      TANK_RULES.max_tvl_drop_pct ≤ (prev.tvlUsd - cur.tvlUsd) / prev.tvlUsd * 100 then
      [Reason.tvlDrop ((prev.tvlUsd - cur.tvlUsd) / prev.tvlUsd * 100)]
    else []) ++
  (if 0 < prev.volumeUsd7d ∧
      TANK_RULES.max_vol7d_drop_pct ≤
        (prev.volumeUsd7d - cur.volumeUsd7d) / prev.volumeUsd7d * 100 then
      [Reason.volDrop ((prev.volumeUsd7d - cur.volumeUsd7d) / prev.volumeUsd7d * 100)]
    else []) ++
  (match cur.il7d with
    | some v => if TANK_RULES.max_il7d < v then [Reason.ilSpike v] else []
    | none => []) ++
  (if 0 < prev.netApy ∧
      TANK_RULES.max_net_apy_drop_pct ≤ (prev.netApy - cur.netApy) / prev.netApy * 100 then
      [Reason.apyDrop ((prev.netApy - cur.netApy) / prev.netApy * 100)]
    else [])

end Short

namespace Long

/-- Embeds the health-check portion of one iteration of long.py `main`
(the region from the `bad`/`refreshed` initialisation to the final
`current_recs` assignment).  The single loop over `current_recs` is split
into two passes over the same data: `refreshed` collects the fresh
snapshots of still-listed pools, `bad` the degraded ones.  On alert the
set is replaced by fresh picks when there are any; otherwise the source
executes `current_recs = refreshed or current_recs`. -/
def healthCycle (lg : ℚ → ℚ) (now : ℤ) (pools : List Pool) (current : List Snap) :
    List Snap :=
  let refreshed := current.filterMap
    (fun prev => (prev.pool.bind (build_pool_index pools)).map (pool_snapshot now))
  let bad : List (Snap × List Reason) := current.filterMap
    (fun prev =>
      match prev.pool.bind (build_pool_index pools) with
      | none => none
      | some p =>
        let cur := pool_snapshot now p
        let reasons := tank_reasons prev cur
        if reasons ≠ [] then some (cur, reasons) else none)
  if bad ≠ [] then
    let picks := pick_stable_pools lg pools
    if picks ≠ [] then picks.map (pool_snapshot now) else current
  else
    if refreshed ≠ [] then refreshed else current

end Long

namespace Mid

/-- Embeds the health-check portion of one iteration of mid.py `main`.
Note that the source computes `refreshed` but never assigns it back:
when nothing degrades, `current` is left untouched. -/
def healthCycle (lg : ℚ → ℚ) (now : ℤ) (pools : List Pool) (current : List Snap) :
    List Snap :=
  let refreshed := current.filterMap
    (fun prev => (prev.pool.bind (build_pool_index pools)).map (pool_snapshot now))
  let bad : List (Snap × List Reason) := current.filterMap
    (fun prev =>
      match prev.pool.bind (build_pool_index pools) with
      | none => none
      | some p =>
        let cur := pool_snapshot now p
        let reasons := tank_reasons prev cur
        if reasons ≠ [] then some (cur, reasons) else none)
  if bad ≠ [] then (pick_pools lg pools).map (pool_snapshot now) else current

end Mid

namespace Short

/-- Embeds the health-check portion of one iteration of short.py `main`.
`priceRisk` models the collaborator `price_il_risk` (signal, divergence);
its reasons are appended after the tank reasons.  On alert the set is
replaced by fresh picks unconditionally; otherwise the source executes
`current = refreshed or current`. -/
def healthCycle (lg : ℚ → ℚ) (priceRisk : Option String → Option String × Option ℚ)
    (now : ℤ) (pools : List Pool) (current : List Snap) : List Snap :=
  let refreshed := current.filterMap
    (fun prev => (prev.pool.bind (build_pool_index pools)).map (pool_snapshot now))
  let bad : List (Snap × List Reason) := current.filterMap
    (fun prev =>
      match prev.pool.bind (build_pool_index pools) with
      | none => none
      | some p =>
        let cur := pool_snapshot now p
        let sd := priceRisk prev.symbol
        let reasons := tank_reasons prev cur ++
          (if sd.1 = some "exit" then [Reason.priceExit sd.2]
           else if sd.1 = some "warn" then [Reason.priceWatch sd.2]
           else [])
        if reasons ≠ [] then some (cur, reasons) else none)
  if bad ≠ [] then (pick_short_pools lg pools).map (pool_snapshot now)
  else if refreshed ≠ [] then refreshed else current

end Short

/-! ### Concrete data used by the concrete evaluations below -/

/-- A concrete stand-in for the uninterpreted logarithm; the concrete
universes below give every pool the same TVL and 7-day volume, so the
selection order does not depend on this choice. -/
def lg0 : ℚ → ℚ := fun _ => 0

/-- A pool passing mid.py PRIMARY_FILTERS (stable-stable, net yield 5). -/
def poolA : Pool :=
  { pool := some "A"
    chain := some "Ethereum"
    project := some "projA"
    symbol := some "USDC-USDT"
    tvlUsd := RawField.number 100000000
    volumeUsd7d := RawField.number 25000000
    apyBase := RawField.number 5
    apyReward := RawField.missing
    apy := RawField.number 5
    il7d := none }

/-- A pool passing only mid.py FALLBACK_FILTERS (stable-base, net 8). -/
def poolB : Pool :=
  { poolA with pool := some "B", project := some "projB", symbol := some "USDC-WETH"
               apyBase := RawField.number 8, apy := RawField.number 8 }

/-- A pool passing only mid.py FALLBACK_FILTERS (stable-base, net 7). -/
def poolC : Pool :=
  { poolB with pool := some "C", project := some "projC"
               apyBase := RawField.number 7, apy := RawField.number 7 }

/-- A pool passing only mid.py FALLBACK_FILTERS (stable-base, net 6). -/
def poolD : Pool :=
  { poolB with pool := some "D", project := some "projD"
               apyBase := RawField.number 6, apy := RawField.number 6 }

/-- A healthy current version of pool A whose TVL slid 10 percent. -/
def poolA90 : Pool :=
  { poolA with tvlUsd := RawField.number 90000000 }

/-- The stored snapshot of pool A from an earlier cycle (TVL 100M). -/
def staleSnapA : Snap :=
  { pool := some "A"
    chain := some "Ethereum"
    project := some "projA"
    symbol := some "USDC-USDT"
    tvlUsd := 100000000
    volumeUsd7d := 25000000
    il7d := none
    netApy := 5
    apy := 5
    ts := 0 }

/-- A snapshot whose reported 7-day impermanent loss sits above the
absolute IL tank threshold of every variant. -/
def ilSnap : Snap :=
  { staleSnapA with il7d := some 3 }

/-- Current snapshot of pool A at TVL 75M (a 25 percent drop). -/
def cur75 : Snap := { staleSnapA with tvlUsd := 75000000 }

/-- Current snapshot of pool A at TVL 79M (a 21 percent drop). -/
def cur79 : Snap := { staleSnapA with tvlUsd := 79000000 }

/-- Current snapshot of pool A at TVL 81M (a 19 percent drop). -/
def cur81 : Snap := { staleSnapA with tvlUsd := 81000000 }

/-- Pool A with neither a base-yield nor a reward-yield field, but a
blended yield of 4. -/
def poolBlend : Pool :=
  { poolA with apyBase := RawField.missing, apyReward := RawField.missing
               apy := RawField.number 4 }

/-- Pool A with a present IL estimate inside every filter bound. -/
def poolIlOk : Pool := { poolA with il7d := some 0.5 }

/-- Pool A with a present IL estimate above every filter bound. -/
def poolIlHigh : Pool := { poolA with il7d := some 3 }

/-! ### Helper lemmas -/

/-- Mapping commutes with intersperse. -/
theorem map_intersperse_eq {α β : Type} (f : α → β) (sep : α) :
    ∀ l : List α, (List.intersperse sep l).map f = List.intersperse (f sep) (l.map f)
  | [] => rfl
  | [x] => rfl
  | x :: y :: xs => by
    show f x :: f sep :: (List.intersperse sep (y :: xs)).map f =
      f x :: f sep :: List.intersperse (f sep) ((y :: xs).map f)
    rw [map_intersperse_eq f sep (y :: xs)]

/-- Each separator character is mapped to the delimiter bar. -/
theorem tokChar_of_mem_SEPS {c : Char} (hc : c ∈ SEPS) : tokChar c = '|' := by
  simp only [SEPS, List.mem_cons, List.not_mem_nil, or_false] at hc
  rcases hc with rfl | rfl | rfl | rfl | rfl <;> rfl

/-- Tokenizing a symbol joined by any of the separator characters yields
the same character list, independent of which separator was used. -/
theorem tokenize_intercalate {c : Char} (hc : c ∈ SEPS) (toks : List (List Char)) :
    tokenize (some (String.mk (List.intercalate [c] toks))) =
      List.intercalate ['|'] (toks.map (List.map tokChar)) := by
  show (List.intercalate [c] toks).map tokChar = _
  rw [List.intercalate, List.intercalate, List.map_flatten, map_intersperse_eq]
  rw [List.map_cons, List.map_nil, tokChar_of_mem_SEPS hc]

/-- Hint counting only depends on the tokenized symbol. -/
theorem hintCount_congr (hints : List String) {s₁ s₂ : Option String}
    (h : tokenize s₁ = tokenize s₂) : hintCount hints s₁ = hintCount hints s₂ := by
  unfold hintCount
  rw [h]

/-- mid.py classification only depends on the tokenized symbol. -/
theorem Mid_classify_congr {s₁ s₂ : Option String} (h : tokenize s₁ = tokenize s₂) :
    Mid.classify s₁ = Mid.classify s₂ := by
  unfold Mid.classify Mid.stableCount Mid.baseCount
  rw [hintCount_congr Mid.STABLE_HINTS h, hintCount_congr Mid.BASE_HINTS h]

/-- long.py classification only depends on the tokenized symbol. -/
theorem Long_classify_congr {s₁ s₂ : Option String} (h : tokenize s₁ = tokenize s₂) :
    Long.classify s₁ = Long.classify s₂ := by
  unfold Long.classify Long.stableCount
  rw [hintCount_congr Long.STABLE_HINTS h]

/-- short.py classification only depends on the tokenized symbol. -/
theorem Short_classify_congr {s₁ s₂ : Option String} (h : tokenize s₁ = tokenize s₂) :
    Short.classify s₁ = Short.classify s₂ := by
  unfold Short.classify Short.stableCount Short.baseCount
  rw [hintCount_congr Short.STABLE_HINTS h, hintCount_congr Short.BASE_HINTS h]

/-! ### C4 -/

/-- C4 counterexample: the short.py classifier has no stable-stable branch,
so the symbol USDC-USDT, which contains two distinct stable hints of the
short variant and no base hints, classifies as other, not stable-stable. -/
theorem c4_short_classify_counterexample :
    Short.classify (some "USDC-USDT") = "other"
    ∧ 2 ≤ Short.stableCount (some "USDC-USDT")
    ∧ Short.baseCount (some "USDC-USDT") = 0
    ∧ "other" ≠ "stable-stable" := by decide

/-- C4 (amended): in the long and mid variants, a symbol with at least two
distinct stable hints and no base hints classifies as stable-stable; the
short variant classifies every such symbol as other; and in all three
variants the classification of separator-joined tokens does not depend on
which separator character joins them. -/
theorem c4_amended_stable_classification :
    (∀ symbol : Option String,
      2 ≤ Mid.stableCount symbol → Mid.baseCount symbol = 0 →
        Mid.classify symbol = "stable-stable")
    ∧ (∀ symbol : Option String,
      2 ≤ Long.stableCount symbol → Long.classify symbol = "stable-stable")
    ∧ (∀ symbol : Option String,
      2 ≤ Short.stableCount symbol → Short.baseCount symbol = 0 →
        Short.classify symbol = "other")
    ∧ (∀ (toks : List (List Char)) (c₁ c₂ : Char), c₁ ∈ SEPS → c₂ ∈ SEPS →
      Mid.classify (some (String.mk (List.intercalate [c₁] toks))) =
        Mid.classify (some (String.mk (List.intercalate [c₂] toks)))
      ∧ Long.classify (some (String.mk (List.intercalate [c₁] toks))) =
        Long.classify (some (String.mk (List.intercalate [c₂] toks)))
      ∧ Short.classify (some (String.mk (List.intercalate [c₁] toks))) =
        Short.classify (some (String.mk (List.intercalate [c₂] toks)))) := by
  refine ⟨?_, ?_, ?_, ?_⟩
  · intro s h1 h2
    unfold Mid.classify
    rw [if_pos ⟨h1, h2⟩]
  · intro s h
    unfold Long.classify
    rw [if_pos h]
  · intro s h1 h2
    unfold Short.classify
    rw [if_neg, if_neg]
    · rintro ⟨hb, hs⟩
      omega
    · rintro ⟨hs, hb⟩
      omega
  · intro toks c₁ c₂ h₁ h₂
    have ht : tokenize (some (String.mk (List.intercalate [c₁] toks))) =
        tokenize (some (String.mk (List.intercalate [c₂] toks))) := by
      rw [tokenize_intercalate h₁, tokenize_intercalate h₂]
    exact ⟨Mid_classify_congr ht, Long_classify_congr ht, Short_classify_congr ht⟩

/-- C4 witness: the amended classification facts evaluated on USDC-USDT,
including separator invariance between the dash and underscore forms. -/
theorem c4_amended_stable_classification_witness :
    Mid.classify (some "USDC-USDT") = "stable-stable"
    ∧ Long.classify (some "USDC-USDT") = "stable-stable"
    ∧ Short.classify (some "USDC-USDT") = "other"
    ∧ Mid.classify
        (some (String.mk (List.intercalate ['-'] ["USDC".toList, "USDT".toList]))) =
      Mid.classify
        (some (String.mk (List.intercalate ['_'] ["USDC".toList, "USDT".toList]))) :=
  ⟨c4_amended_stable_classification.1 (some "USDC-USDT") (by decide) (by decide),
   c4_amended_stable_classification.2.1 (some "USDC-USDT") (by decide),
   c4_amended_stable_classification.2.2.1 (some "USDC-USDT") (by decide) (by decide),
   (c4_amended_stable_classification.2.2.2 ["USDC".toList, "USDT".toList] '-' '_'
     (by decide) (by decide)).1⟩

/-! ### C3 -/

/-- C3 counterexample: a pair of numerically identical snapshots (here the
very same snapshot) whose reported IL sits above the absolute IL threshold
still produces a non-empty reason list, because the IL spike check is an
absolute comparison on the current snapshot, not a delta. -/
theorem c3_identical_snapshot_counterexample :
    Mid.tank_reasons ilSnap ilSnap ≠ []
    ∧ Mid.tank_reasons ilSnap ilSnap = [Reason.ilSpike 3] := by
  refine ⟨?_, ?_⟩ <;> norm_num [Mid.tank_reasons, ilSnap, staleSnapA, Mid.TANK_RULES]

/-- C3 (amended): for snapshots with identical numeric fields the
degradation check returns no reasons, provided the shared values also pass
the absolute checks: the IL estimate, when present, is at most the
absolute IL threshold of the variant, and in the stable variant the TVL
is not a positive value under the absolute floor. -/
theorem c3_amended_no_change_healthy :
    (∀ prev cur : Snap,
      prev.tvlUsd = cur.tvlUsd → prev.volumeUsd7d = cur.volumeUsd7d →
      prev.il7d = cur.il7d → prev.netApy = cur.netApy →
      (∀ v, cur.il7d = some v → v ≤ Mid.TANK_RULES.max_il7d) →
      Mid.tank_reasons prev cur = [])
    ∧ (∀ prev cur : Snap,
      prev.tvlUsd = cur.tvlUsd → prev.volumeUsd7d = cur.volumeUsd7d →
      prev.il7d = cur.il7d → prev.netApy = cur.netApy →
      (∀ v, cur.il7d = some v → v ≤ Long.TANK_RULES.max_il7d) →
      ¬(0 < cur.tvlUsd ∧ cur.tvlUsd < Long.TANK_RULES.min_tvl_absolute) →
      Long.tank_reasons prev cur = [])
    ∧ (∀ prev cur : Snap,
      prev.tvlUsd = cur.tvlUsd → prev.volumeUsd7d = cur.volumeUsd7d →
      prev.il7d = cur.il7d → prev.netApy = cur.netApy →
      (∀ v, cur.il7d = some v → v ≤ Short.TANK_RULES.max_il7d) →
      Short.tank_reasons prev cur = []) := by
  refine ⟨?_, ?_, ?_⟩
  · intro prev cur h1 h2 h3 h4 h5
    unfold Mid.tank_reasons
    rcases hcur : cur.il7d with _ | v
    · rw [← h1, ← h2, ← h4]
      simp only [hcur]
      norm_num [Mid.TANK_RULES]
    · have hv := h5 v hcur
      rw [← h1, ← h2, ← h4]
      simp only [hcur]
      rw [if_neg (not_lt.mpr hv)]
      norm_num [Mid.TANK_RULES]
  · intro prev cur h1 h2 h3 h4 h5 h6
    unfold Long.tank_reasons
    rcases hcur : cur.il7d with _ | v
    · rw [← h1, ← h2, ← h4]
      simp only [hcur]
      rw [if_neg (fun hc => h6 (h1 ▸ hc))]
      norm_num [Long.TANK_RULES]
    · have hv := h5 v hcur
      rw [← h1, ← h2, ← h4]
      simp only [hcur]
      rw [if_neg (fun hc => h6 (h1 ▸ hc)), if_neg (not_lt.mpr hv)]
      norm_num [Long.TANK_RULES]
  · intro prev cur h1 h2 h3 h4 h5
    unfold Short.tank_reasons
    rcases hcur : cur.il7d with _ | v
    · rw [← h1, ← h2, ← h4]
      simp only [hcur]
      norm_num [Short.TANK_RULES]
    · have hv := h5 v hcur
      rw [← h1, ← h2, ← h4]
      simp only [hcur]
      rw [if_neg (not_lt.mpr hv)]
      norm_num [Short.TANK_RULES]

/-- C3 witness: an unchanged healthy snapshot yields no reasons in any of
the three variants. -/
theorem c3_amended_no_change_healthy_witness :
    Mid.tank_reasons staleSnapA staleSnapA = []
    ∧ Long.tank_reasons staleSnapA staleSnapA = []
    ∧ Short.tank_reasons staleSnapA staleSnapA = [] :=
  ⟨c3_amended_no_change_healthy.1 staleSnapA staleSnapA rfl rfl rfl rfl
      (fun v hv => Option.noConfusion hv),
   c3_amended_no_change_healthy.2.1 staleSnapA staleSnapA rfl rfl rfl rfl
      (fun v hv => Option.noConfusion hv) (by decide),
   c3_amended_no_change_healthy.2.2 staleSnapA staleSnapA rfl rfl rfl rfl
      (fun v hv => Option.noConfusion hv)⟩

/-! ### C7 -/

/-- C7: when the previous TVL is positive, long.py reports the relative
TVL-drop reason exactly when the percentage drop reaches the configured
threshold, the boundary inclusive. -/
theorem c7_tvl_drop_boundary (prev cur : Snap) (h : 0 < prev.tvlUsd) :
    Reason.tvlDrop ((prev.tvlUsd - cur.tvlUsd) / prev.tvlUsd * 100)
        ∈ Long.tank_reasons prev cur
    ↔ Long.TANK_RULES.max_tvl_drop_pct ≤ (prev.tvlUsd - cur.tvlUsd) / prev.tvlUsd * 100 := by
  unfold Long.tank_reasons
  by_cases hd : Long.TANK_RULES.max_tvl_drop_pct ≤ (prev.tvlUsd - cur.tvlUsd) / prev.tvlUsd * 100
  · have hcond : 0 < prev.tvlUsd ∧
        Long.TANK_RULES.max_tvl_drop_pct ≤ (prev.tvlUsd - cur.tvlUsd) / prev.tvlUsd * 100 :=
      ⟨h, hd⟩
    rw [if_pos hcond]
    refine iff_of_true ?_ hd
    simp [List.mem_append]
  · have hncond : ¬(0 < prev.tvlUsd ∧
        Long.TANK_RULES.max_tvl_drop_pct ≤ (prev.tvlUsd - cur.tvlUsd) / prev.tvlUsd * 100) :=
      fun hc => hd hc.2
    rw [if_neg hncond]
    refine iff_of_false ?_ hd
    intro hm
    simp only [List.mem_append] at hm
    rcases hm with (((hm | hm) | hm) | hm) | hm
    · split at hm <;> simp_all
    · exact List.not_mem_nil _ hm
    · split at hm <;> simp_all
    · split at hm <;> (try split at hm) <;> simp_all
    · split at hm <;> simp_all

/-- C7 witness: with previous TVL 100M under the 20 percent threshold, a
drop to 75M (25 percent) and to 79M (21 percent) triggers the TVL-drop
reason, while 81M (19 percent) does not. -/
theorem c7_tvl_drop_boundary_witness :
    0 < staleSnapA.tvlUsd
    ∧ Reason.tvlDrop ((staleSnapA.tvlUsd - cur75.tvlUsd) / staleSnapA.tvlUsd * 100)
        ∈ Long.tank_reasons staleSnapA cur75
    ∧ Reason.tvlDrop ((staleSnapA.tvlUsd - cur79.tvlUsd) / staleSnapA.tvlUsd * 100)
        ∈ Long.tank_reasons staleSnapA cur79
    ∧ Reason.tvlDrop ((staleSnapA.tvlUsd - cur81.tvlUsd) / staleSnapA.tvlUsd * 100)
        ∉ Long.tank_reasons staleSnapA cur81 :=
  ⟨by norm_num [staleSnapA],
   (c7_tvl_drop_boundary staleSnapA cur75 (by norm_num [staleSnapA])).mpr
     (by norm_num [staleSnapA, cur75, Long.TANK_RULES]),
   (c7_tvl_drop_boundary staleSnapA cur79 (by norm_num [staleSnapA])).mpr
     (by norm_num [staleSnapA, cur79, Long.TANK_RULES]),
   fun hm => absurd ((c7_tvl_drop_boundary staleSnapA cur81 (by norm_num [staleSnapA])).mp hm)
     (by norm_num [staleSnapA, cur81, Long.TANK_RULES])⟩

/-! ### C8 -/

/-- C8: net yield is base plus haircut times reward whenever the record
carries a base-yield or reward-yield field (even zero-valued or present but
non-numeric), otherwise it is the blended yield field read through `num`;
missing and non-numeric fields read as 0 and the function is total. -/
theorem c8_net_apy_formula (p : Pool) :
    ((p.apyBase ≠ RawField.missing ∨ p.apyReward ≠ RawField.missing) →
      Mid.net_apy p = num p.apyBase + Mid.REWARD_HAIRCUT * num p.apyReward)
    ∧ ((p.apyBase = RawField.missing ∧ p.apyReward = RawField.missing) →
      Mid.net_apy p = num p.apy)
    ∧ num RawField.missing = 0
    ∧ num RawField.nonNumber = 0 := by
  refine ⟨?_, ?_, rfl, rfl⟩
  · intro h
    unfold Mid.net_apy
    rw [if_pos h]
  · intro h
    unfold Mid.net_apy
    rw [if_neg]
    rintro (hb | hr)
    · exact hb h.1
    · exact hr h.2

/-- C8 witness: a pool with an explicit base yield of 5 and no reward
field nets 5 plus haircut times 0, and a pool with neither field falls
back to its blended yield. -/
theorem c8_net_apy_formula_witness :
    Mid.net_apy poolA = num poolA.apyBase + Mid.REWARD_HAIRCUT * num poolA.apyReward
    ∧ Mid.net_apy poolBlend = num poolBlend.apy :=
  ⟨(c8_net_apy_formula poolA).1 (Or.inl (by decide)),
   (c8_net_apy_formula poolBlend).2.1 ⟨by decide, by decide⟩⟩

/-! ### C9 -/

/-- C9: an IL estimate within the bound is equivalent to no IL estimate,
an IL estimate strictly above the bound rejects the pool, and for a pool
without an IL estimate the filter outcome is exactly the conjunction of
the remaining conditions, in both the mid and long variants. -/
theorem c9_absent_il_never_disqualifies :
    (∀ (rules : Filters) (p : Pool) (v : ℚ), p.il7d = some v → v ≤ rules.max_il7d →
      Mid.filter_pool p rules = Mid.filter_pool { p with il7d := none } rules)
    ∧ (∀ (rules : Filters) (p : Pool) (v : ℚ), p.il7d = some v → rules.max_il7d < v →
      Mid.filter_pool p rules = false)
    ∧ (∀ (rules : Filters) (p : Pool), p.il7d = none →
      (Mid.filter_pool p rules = true ↔
        chain_ok p = true
        ∧ ¬(num p.tvlUsd < rules.min_tvl)
        ∧ ¬(num p.volumeUsd7d < rules.min_vol7d)
        ∧ ¬(rules.max_apy < num p.apy)
        ∧ rules.allowed_types.contains (Mid.classify p.symbol) = true))
    ∧ (∀ (rules : Filters) (p : Pool) (v : ℚ), p.il7d = some v → v ≤ rules.max_il7d →
      Long.filter_pool p rules = Long.filter_pool { p with il7d := none } rules)
    ∧ (∀ (rules : Filters) (p : Pool) (v : ℚ), p.il7d = some v → rules.max_il7d < v →
      Long.filter_pool p rules = false)
    ∧ (∀ (rules : Filters) (p : Pool), p.il7d = none →
      (Long.filter_pool p rules = true ↔
        chain_ok p = true
        ∧ rules.allowed_types.contains (Long.classify p.symbol) = true
        ∧ ¬(num p.tvlUsd < rules.min_tvl)
        ∧ ¬(num p.volumeUsd7d < rules.min_vol7d)
        ∧ ¬(rules.max_apy < num p.apy))) := by
  refine ⟨?_, ?_, ?_, ?_, ?_, ?_⟩
  · intro rules p v hil hv
    have h1 : il_exceeds p.il7d rules.max_il7d = false := by
      rw [hil]
      simp [il_exceeds, not_lt.mpr hv]
    unfold Mid.filter_pool
    rw [h1]
    simp [il_exceeds, chain_ok]
  · intro rules p v hil hv
    have h1 : il_exceeds p.il7d rules.max_il7d = true := by
      rw [hil]
      simp [il_exceeds, hv]
    unfold Mid.filter_pool
    rw [h1]
    split_ifs <;> simp_all
  · intro rules p hil
    have h1 : il_exceeds p.il7d rules.max_il7d = false := by
      rw [hil]
      rfl
    unfold Mid.filter_pool
    rw [h1]
    split_ifs <;> simp_all
  · intro rules p v hil hv
    have h1 : il_exceeds p.il7d rules.max_il7d = false := by
      rw [hil]
      simp [il_exceeds, not_lt.mpr hv]
    unfold Long.filter_pool
    rw [h1]
    simp [il_exceeds, chain_ok]
  · intro rules p v hil hv
    have h1 : il_exceeds p.il7d rules.max_il7d = true := by
      rw [hil]
      simp [il_exceeds, hv]
    unfold Long.filter_pool
    rw [h1]
    split_ifs <;> simp_all
  · intro rules p hil
    have h1 : il_exceeds p.il7d rules.max_il7d = false := by
      rw [hil]
      rfl
    unfold Long.filter_pool
    rw [h1]
    split_ifs <;> simp_all

/-- C9 witness: with the mid primary filters, an IL of 0.5 on an otherwise
passing pool filters like no IL at all, an IL of 3 rejects, and the pool
without an IL estimate passes because the remaining conditions hold. -/
theorem c9_absent_il_never_disqualifies_witness :
    Mid.filter_pool poolIlOk Mid.PRIMARY_FILTERS =
      Mid.filter_pool { poolIlOk with il7d := none } Mid.PRIMARY_FILTERS
    ∧ Mid.filter_pool poolIlHigh Mid.PRIMARY_FILTERS = false
    ∧ Mid.filter_pool poolA Mid.PRIMARY_FILTERS = true
    ∧ Long.filter_pool poolIlHigh Long.STABLE_FILTERS = false
    ∧ Long.filter_pool poolA Long.STABLE_FILTERS = true :=
  ⟨c9_absent_il_never_disqualifies.1 Mid.PRIMARY_FILTERS poolIlOk 0.5 rfl (by norm_num [Mid.PRIMARY_FILTERS]),
   c9_absent_il_never_disqualifies.2.1 Mid.PRIMARY_FILTERS poolIlHigh 3 rfl
     (by norm_num [Mid.PRIMARY_FILTERS]),
   (c9_absent_il_never_disqualifies.2.2.1 Mid.PRIMARY_FILTERS poolA rfl).mpr
     ⟨by decide, by decide, by decide, by decide, by decide⟩,
   c9_absent_il_never_disqualifies.2.2.2.2.1 Long.STABLE_FILTERS poolIlHigh 3 rfl
     (by norm_num [Long.STABLE_FILTERS]),
   (c9_absent_il_never_disqualifies.2.2.2.2.2 Long.STABLE_FILTERS poolA rfl).mpr
     ⟨by decide, by decide, by decide, by decide, by decide⟩⟩

/-! ### Concrete evaluation lemmas for the selectors -/

/-- Pool A passes the mid primary filters. -/
theorem eval_filterA_primary : Mid.filter_pool poolA Mid.PRIMARY_FILTERS = true := by decide

/-- Pool A passes the mid fallback filters. -/
theorem eval_filterA_fallback : Mid.filter_pool poolA Mid.FALLBACK_FILTERS = true := by decide

/-- Pool B fails the mid primary filters (stable-base is not allowed). -/
theorem eval_filterB_primary : Mid.filter_pool poolB Mid.PRIMARY_FILTERS = false := by decide

/-- Pool B passes the mid fallback filters. -/
theorem eval_filterB_fallback : Mid.filter_pool poolB Mid.FALLBACK_FILTERS = true := by decide

/-- Pool C fails the mid primary filters. -/
theorem eval_filterC_primary : Mid.filter_pool poolC Mid.PRIMARY_FILTERS = false := by decide

/-- Pool C passes the mid fallback filters. -/
theorem eval_filterC_fallback : Mid.filter_pool poolC Mid.FALLBACK_FILTERS = true := by decide

/-- Pool D fails the mid primary filters. -/
theorem eval_filterD_primary : Mid.filter_pool poolD Mid.PRIMARY_FILTERS = false := by decide

/-- Pool D passes the mid fallback filters. -/
theorem eval_filterD_fallback : Mid.filter_pool poolD Mid.FALLBACK_FILTERS = true := by decide

/-- Pool A passes the long stable filters. -/
theorem eval_filterA_long : Long.filter_pool poolA Long.STABLE_FILTERS = true := by decide

/-- Pool B passes the short filters. -/
theorem eval_filterB_short : Short.filter_pool poolB = true := by decide

/-- Net yield of pool A under mid valuation. -/
theorem eval_netA : Mid.net_apy poolA = 5 := by
  norm_num [Mid.net_apy, poolA, Mid.REWARD_HAIRCUT, num]

/-- Net yield of pool B under mid valuation. -/
theorem eval_netB : Mid.net_apy poolB = 8 := by
  norm_num [Mid.net_apy, poolB, poolA, Mid.REWARD_HAIRCUT, num]

/-- Net yield of pool C under mid valuation. -/
theorem eval_netC : Mid.net_apy poolC = 7 := by
  norm_num [Mid.net_apy, poolC, poolB, poolA, Mid.REWARD_HAIRCUT, num]

/-- Net yield of pool D under mid valuation. -/
theorem eval_netD : Mid.net_apy poolD = 6 := by
  norm_num [Mid.net_apy, poolD, poolB, poolA, Mid.REWARD_HAIRCUT, num]

/-- Mid score of pool A under the constant-zero log model. -/
theorem eval_scoreA : Mid.score lg0 poolA = 3 := by
  norm_num [Mid.score, eval_netA, lg0]

/-- Mid score of pool B under the constant-zero log model. -/
theorem eval_scoreB : Mid.score lg0 poolB = 4.8 := by
  norm_num [Mid.score, eval_netB, lg0]

/-- Mid score of pool C under the constant-zero log model. -/
theorem eval_scoreC : Mid.score lg0 poolC = 4.2 := by
  norm_num [Mid.score, eval_netC, lg0]

/-- Mid score of pool D under the constant-zero log model. -/
theorem eval_scoreD : Mid.score lg0 poolD = 3.6 := by
  norm_num [Mid.score, eval_netD, lg0]

/-- Evaluating the mid selector on the one-primary three-fallback
universe: pool A is picked by the primary pass and then again by the
fallback pass. -/
theorem eval_pick_mid4 :
    Mid.pick_pools lg0 [poolA, poolB, poolC, poolD] = [poolA, poolB, poolC, poolD, poolA] := by
  norm_num [Mid.pick_pools, byDesc, RECOMMEND_N,
    eval_filterA_primary, eval_filterB_primary, eval_filterC_primary, eval_filterD_primary,
    eval_filterA_fallback, eval_filterB_fallback, eval_filterC_fallback, eval_filterD_fallback,
    eval_scoreA, eval_scoreB, eval_scoreC, eval_scoreD]

/-- Evaluating the mid selector on the two-pool universe. -/
theorem eval_pick_mid2 :
    Mid.pick_pools lg0 [poolA, poolB] = [poolA, poolB, poolA] := by
  norm_num [Mid.pick_pools, byDesc, RECOMMEND_N,
    eval_filterA_primary, eval_filterB_primary,
    eval_filterA_fallback, eval_filterB_fallback,
    eval_scoreA, eval_scoreB]

/-- Evaluating the long selector on the singleton universe. -/
theorem eval_pick_long1 : Long.pick_stable_pools lg0 [poolA] = [poolA] := by
  norm_num [Long.pick_stable_pools, byDesc, RECOMMEND_N, eval_filterA_long]

/-- Evaluating the short selector on the singleton universe. -/
theorem eval_pick_short1 : Short.pick_short_pools lg0 [poolB] = [poolB] := by
  norm_num [Short.pick_short_pools, byDesc, RECOMMEND_N, eval_filterB_short]

/-! ### C5 -/

/-- C5: each selector returns at most RECOMMEND_N pools, and every
returned pool passes the filter predicate of at least one configured
policy (primary or fallback in the two-tier mid variant, the single
policy in the long and short variants). -/
theorem c5_select_bound_and_filtered :
    (∀ (lg : ℚ → ℚ) (pools : List Pool) (p : Pool), p ∈ Mid.pick_pools lg pools →
      Mid.filter_pool p Mid.PRIMARY_FILTERS = true
      ∨ Mid.filter_pool p Mid.FALLBACK_FILTERS = true)
    ∧ (∀ (lg : ℚ → ℚ) (pools : List Pool), (Mid.pick_pools lg pools).length ≤ RECOMMEND_N)
    ∧ (∀ (lg : ℚ → ℚ) (pools : List Pool) (p : Pool), p ∈ Long.pick_stable_pools lg pools →
      Long.filter_pool p Long.STABLE_FILTERS = true)
    ∧ (∀ (lg : ℚ → ℚ) (pools : List Pool),
      (Long.pick_stable_pools lg pools).length ≤ RECOMMEND_N)
    ∧ (∀ (lg : ℚ → ℚ) (pools : List Pool) (p : Pool), p ∈ Short.pick_short_pools lg pools →
      Short.filter_pool p = true)
    ∧ (∀ (lg : ℚ → ℚ) (pools : List Pool),
      (Short.pick_short_pools lg pools).length ≤ RECOMMEND_N) := by
  refine ⟨?_, ?_, ?_, ?_, ?_, ?_⟩
  · intro lg pools p hp
    simp only [Mid.pick_pools] at hp
    have hp' := List.mem_of_mem_take hp
    split at hp'
    · rcases List.mem_append.mp hp' with hmem | hmem
      · exact Or.inl (List.mem_filter.mp ((List.mem_insertionSort _).mp hmem)).2
      · exact Or.inr
          (List.mem_filter.mp ((List.mem_insertionSort _).mp (List.mem_of_mem_take hmem))).2
    · exact Or.inl (List.mem_filter.mp ((List.mem_insertionSort _).mp hp')).2
  · intro lg pools
    simp only [Mid.pick_pools]
    exact List.length_take_le _ _
  · intro lg pools p hp
    simp only [Long.pick_stable_pools] at hp
    exact (List.mem_filter.mp ((List.mem_insertionSort _).mp (List.mem_of_mem_take hp))).2
  · intro lg pools
    simp only [Long.pick_stable_pools]
    exact List.length_take_le _ _
  · intro lg pools p hp
    simp only [Short.pick_short_pools] at hp
    exact (List.mem_filter.mp ((List.mem_insertionSort _).mp (List.mem_of_mem_take hp))).2
  · intro lg pools
    simp only [Short.pick_short_pools]
    exact List.length_take_le _ _

/-- C5 witness: the selector facts evaluated on the concrete universes. -/
theorem c5_select_bound_and_filtered_witness :
    (Mid.filter_pool poolA Mid.PRIMARY_FILTERS = true
      ∨ Mid.filter_pool poolA Mid.FALLBACK_FILTERS = true)
    ∧ (Mid.pick_pools lg0 [poolA, poolB]).length ≤ RECOMMEND_N
    ∧ Long.filter_pool poolA Long.STABLE_FILTERS = true
    ∧ Short.filter_pool poolB = true :=
  ⟨c5_select_bound_and_filtered.1 lg0 [poolA, poolB] poolA
      (by rw [eval_pick_mid2]; exact List.mem_cons_self _ _),
   c5_select_bound_and_filtered.2.1 lg0 [poolA, poolB],
   c5_select_bound_and_filtered.2.2.1 lg0 [poolA] poolA
      (by rw [eval_pick_long1]; exact List.mem_cons_self _ _),
   c5_select_bound_and_filtered.2.2.2.2.1 lg0 [poolB] poolB
      (by rw [eval_pick_short1]; exact List.mem_cons_self _ _)⟩

/-! ### C6 -/

/-- C6 counterexample: on a universe where pool A passes the primary
policy with score 3 and pool B passes only the fallback policy with score
4.8, the mid selector returns A before B (and A again), so the returned
list is not ordered highest score first. -/
theorem c6_fallback_order_counterexample :
    ¬ List.Pairwise (byDesc (Mid.score lg0)) (Mid.pick_pools lg0 [poolA, poolB]) := by
  rw [eval_pick_mid2]
  intro hp
  have h := (List.pairwise_cons.mp hp).1 poolB (List.mem_cons_self _ _)
  unfold byDesc at h
  rw [eval_scoreA, eval_scoreB] at h
  norm_num at h

/-- C6 (amended): the single-policy selectors (long and short) return
lists sorted by descending score; the two-tier mid selector returns the
concatenation of two lists, each sorted by descending score, but the
concatenation itself need not be sorted. -/
theorem c6_amended_sorted_selection :
    (∀ (lg : ℚ → ℚ) (pools : List Pool),
      List.Sorted (byDesc (Long.score_stable lg)) (Long.pick_stable_pools lg pools))
    ∧ (∀ (lg : ℚ → ℚ) (pools : List Pool),
      List.Sorted (byDesc (Short.score_short lg)) (Short.pick_short_pools lg pools))
    ∧ (∀ (lg : ℚ → ℚ) (pools : List Pool), ∃ l₁ l₂,
      Mid.pick_pools lg pools = l₁ ++ l₂
      ∧ List.Sorted (byDesc (Mid.score lg)) l₁
      ∧ List.Sorted (byDesc (Mid.score lg)) l₂) := by
  refine ⟨?_, ?_, ?_⟩
  · intro lg pools
    simp only [Long.pick_stable_pools]
    exact List.Pairwise.sublist (List.take_sublist _ _) (List.sorted_insertionSort _ _)
  · intro lg pools
    simp only [Short.pick_short_pools]
    exact List.Pairwise.sublist (List.take_sublist _ _) (List.sorted_insertionSort _ _)
  · intro lg pools
    simp only [Mid.pick_pools]
    split
    · rw [List.take_append_eq_append_take]
      refine ⟨_, _, rfl, ?_, ?_⟩
      · exact List.Pairwise.sublist (List.take_sublist _ _) (List.sorted_insertionSort _ _)
      · exact List.Pairwise.sublist ((List.take_sublist _ _).trans (List.take_sublist _ _))
          (List.sorted_insertionSort _ _)
    · refine ⟨_, [], (List.append_nil _).symm, ?_, List.Pairwise.nil⟩
      exact List.Pairwise.sublist (List.take_sublist _ _) (List.sorted_insertionSort _ _)

/-- C6 witness: the long selector output on the singleton universe is
sorted by descending score. -/
theorem c6_amended_sorted_selection_witness :
    List.Sorted (byDesc (Long.score_stable lg0)) (Long.pick_stable_pools lg0 [poolA]) :=
  c6_amended_sorted_selection.1 lg0 [poolA]

/-! ### C1 -/

/-- C1: on the universe with one pool (A) meeting the primary policy and
three pools (B, C, D) meeting only the fallback policy, with N = 5, the
mid selector returns five entries in which the identifier A appears twice:
the fallback top-up does not exclude pools already picked by the primary
pass, so the list holds only four distinct pools. -/
theorem c1_pick_pools_duplicate :
    (Mid.pick_pools lg0 [poolA, poolB, poolC, poolD]).map Pool.pool
      = [some "A", some "B", some "C", some "D", some "A"]
    ∧ ¬ ((Mid.pick_pools lg0 [poolA, poolB, poolC, poolD]).map Pool.pool).Nodup
    ∧ ((Mid.pick_pools lg0 [poolA, poolB, poolC, poolD]).map Pool.pool).dedup.length = 4 := by
  refine ⟨?_, ?_, ?_⟩ <;> rw [eval_pick_mid4] <;> decide

/-! ### Helpers for the monitor cycle claims -/

/-- A successful index lookup returns a record of the universe list. -/
theorem build_pool_index_mem {pools : List Pool} {pid : String} {p : Pool}
    (h : build_pool_index pools pid = some p) : p ∈ pools := by
  have H : ∀ (l : List Pool) (acc : Option Pool),
      (l.foldl (fun acc q =>
        match q.pool with
        | some s => if s ≠ "" ∧ s = pid then some q else acc
        | none => acc) acc) = some p → p ∈ l ∨ acc = some p := by
    intro l
    induction l with
    | nil => exact fun acc h => Or.inr h
    | cons q rest ih =>
      intro acc hacc
      rw [List.foldl_cons] at hacc
      rcases ih _ hacc with hm | hm
      · exact Or.inl (List.mem_cons_of_mem _ hm)
      · rcases hq : q.pool with _ | s <;> simp only [hq] at hm
        · exact Or.inr hm
        · by_cases hc : s ≠ "" ∧ s = pid
          · rw [if_pos hc] at hm
            injection hm with h2
            exact Or.inl (by rw [← h2]; exact List.mem_cons_self _ _)
          · rw [if_neg hc] at hm
            exact Or.inr hm
  rcases H pools none h with hm | hm
  · exact hm
  · exact Option.noConfusion hm

/-- Every refreshed snapshot is the snapshot of a record of the current
universe list. -/
theorem refreshed_mem {pools : List Pool} {current : List Snap} {s : Snap} {f : Pool → Snap}
    (hs : s ∈ current.filterMap
      (fun prev => (prev.pool.bind (build_pool_index pools)).map f)) :
    ∃ p ∈ pools, s = f p := by
  rcases List.mem_filterMap.mp hs with ⟨prev, _, hmap⟩
  rcases hb : prev.pool.bind (build_pool_index pools) with _ | p
  · rw [hb] at hmap
    exact Option.noConfusion hmap
  · rw [hb] at hmap
    simp only [Option.map_some'] at hmap
    injection hmap with h1
    rcases hpid : prev.pool with _ | pid
    · rw [hpid] at hb
      exact Option.noConfusion hb
    · rw [hpid] at hb
      simp only [Option.some_bind] at hb
      exact ⟨p, build_pool_index_mem hb, h1.symm⟩

/-- Long picks are drawn from the universe list. -/
theorem pick_stable_pools_subset {lg : ℚ → ℚ} {pools : List Pool} {p : Pool}
    (hp : p ∈ Long.pick_stable_pools lg pools) : p ∈ pools := by
  simp only [Long.pick_stable_pools] at hp
  exact (List.mem_filter.mp ((List.mem_insertionSort _).mp (List.mem_of_mem_take hp))).1

/-- Short picks are drawn from the universe list. -/
theorem pick_short_pools_subset {lg : ℚ → ℚ} {pools : List Pool} {p : Pool}
    (hp : p ∈ Short.pick_short_pools lg pools) : p ∈ pools := by
  simp only [Short.pick_short_pools] at hp
  exact (List.mem_filter.mp ((List.mem_insertionSort _).mp (List.mem_of_mem_take hp))).1

/-- The index over the singleton universe resolves the identifier A. -/
theorem eval_index_A : build_pool_index [poolA90] "A" = some poolA90 := by decide

/-- The stored identifier of the stale snapshot. -/
theorem eval_stale_pool : staleSnapA.pool = some "A" := rfl

/-- The healthy comparison of the stale snapshot against the fresh one in
the mid variant produces no reasons (TVL slid only 10 percent). -/
theorem eval_tank_mid :
    Mid.tank_reasons staleSnapA (Mid.pool_snapshot 0 poolA90) = [] := by
  norm_num [Mid.tank_reasons, Mid.pool_snapshot, Mid.net_apy, Mid.TANK_RULES,
    Mid.REWARD_HAIRCUT, num, staleSnapA, poolA90, poolA]

/-- Evaluating one healthy mid.py monitoring cycle: the tracked snapshot
of pool A is left untouched even though the fetched TVL moved to 90M. -/
theorem eval_cycle_mid : Mid.healthCycle lg0 0 [poolA90] [staleSnapA] = [staleSnapA] := by
  simp only [Mid.healthCycle, List.filterMap_cons, List.filterMap_nil, eval_stale_pool,
    Option.some_bind, eval_index_A, Option.map_some', eval_tank_mid]
  simp

/-- The healthy comparison of the stale snapshot against the fresh one in
the long variant produces no reasons. -/
theorem eval_tank_long :
    Long.tank_reasons staleSnapA (Long.pool_snapshot 0 poolA90) = [] := by
  norm_num [Long.tank_reasons, Long.pool_snapshot, Long.net_apy, Long.TANK_RULES,
    Long.REWARD_HAIRCUT, num, staleSnapA, poolA90, poolA]

/-- Evaluating one healthy long.py monitoring cycle on the same input:
the tracked snapshot is refreshed in place to the fetched values. -/
theorem eval_cycle_long :
    Long.healthCycle lg0 0 [poolA90] [staleSnapA] = [Long.pool_snapshot 0 poolA90] := by
  simp only [Long.healthCycle, List.filterMap_cons, List.filterMap_nil, eval_stale_pool,
    Option.some_bind, eval_index_A, Option.map_some', eval_tank_long]
  simp

/-- Evaluating one long.py monitoring cycle against an empty universe:
the tracked snapshot of the absent pool A is retained, not dropped. -/
theorem eval_cycle_long_empty :
    Long.healthCycle lg0 0 [] [staleSnapA] = [staleSnapA] := by
  norm_num [Long.healthCycle, build_pool_index, staleSnapA, List.filterMap_cons]

/-! ### C2 -/

/-- C2: in a cycle where no tracked pool degrades, mid.py leaves the
stored snapshot untouched (the freshly computed `refreshed` list is
discarded), while long.py replaces it with the fresh snapshot; the fresh
snapshot genuinely differs from the stored one (TVL 90M vs 100M), so the
mid variant keeps a stale baseline. -/
theorem c2_stale_refresh_bug :
    Mid.healthCycle lg0 0 [poolA90] [staleSnapA] = [staleSnapA]
    ∧ Mid.pool_snapshot 0 poolA90 ≠ staleSnapA
    ∧ Long.healthCycle lg0 0 [poolA90] [staleSnapA] = [Long.pool_snapshot 0 poolA90]
    ∧ Long.pool_snapshot 0 poolA90 ≠ staleSnapA := by
  refine ⟨eval_cycle_mid, ?_, eval_cycle_long, ?_⟩
  · intro h
    have h2 := congrArg Snap.tvlUsd h
    norm_num [Mid.pool_snapshot, staleSnapA, poolA90, poolA, num] at h2
  · intro h
    have h2 := congrArg Snap.tvlUsd h
    norm_num [Long.pool_snapshot, staleSnapA, poolA90, poolA, num] at h2

/-! ### C10 -/

/-- C10 counterexample: when every tracked pool is absent from the fetched
universe (here the empty universe), the long.py cycle retains the stale
snapshot of pool A instead of dropping it. -/
theorem c10_all_absent_retained_counterexample :
    Long.healthCycle lg0 0 [] [staleSnapA] = [staleSnapA]
    ∧ staleSnapA.pool = some "A" :=
  ⟨eval_cycle_long_empty, rfl⟩

/-- C10 (amended): whenever a long.py or short.py monitoring cycle
actually changes the active set, every snapshot it retains is the
snapshot of a pool present in the fetched universe, so pools absent from
the universe are dropped; when the guard keeps the prior state (all
tracked pools absent, or an alert with no replacement picks), the set is
returned unchanged. -/
theorem c10_amended_universe_membership :
    (∀ (lg : ℚ → ℚ) (now : ℤ) (pools : List Pool) (current : List Snap) (s : Snap),
      Long.healthCycle lg now pools current ≠ current →
      s ∈ Long.healthCycle lg now pools current →
      ∃ p ∈ pools, s = Long.pool_snapshot now p)
    ∧ (∀ (lg : ℚ → ℚ) (priceRisk : Option String → Option String × Option ℚ)
        (now : ℤ) (pools : List Pool) (current : List Snap) (s : Snap),
      Short.healthCycle lg priceRisk now pools current ≠ current →
      s ∈ Short.healthCycle lg priceRisk now pools current →
      ∃ p ∈ pools, s = Short.pool_snapshot now p) := by
  constructor
  · intro lg now pools current s hne hs
    simp only [Long.healthCycle] at hne hs
    split at hs
    · split at hs
      · rcases List.mem_map.mp hs with ⟨p, hp, hfp⟩
        exact ⟨p, pick_stable_pools_subset hp, hfp.symm⟩
      · rename_i hbad hpicks
        rw [if_pos hbad, if_neg hpicks] at hne
        exact absurd rfl hne
    · split at hs
      · exact refreshed_mem hs
      · rename_i hbad hrefr
        rw [if_neg hbad, if_neg hrefr] at hne
        exact absurd rfl hne
  · intro lg priceRisk now pools current s hne hs
    simp only [Short.healthCycle] at hne hs
    split at hs
    · rcases List.mem_map.mp hs with ⟨p, hp, hfp⟩
      exact ⟨p, pick_short_pools_subset hp, hfp.symm⟩
    · split at hs
      · exact refreshed_mem hs
      · rename_i hbad hrefr
        rw [if_neg hbad, if_neg hrefr] at hne
        exact absurd rfl hne

/-- C10 witness: a healthy cycle that does change the set (pool A was
refreshed from TVL 100M to 90M) only retains snapshots of pools present
in the universe. -/
theorem c10_amended_universe_membership_witness :
    Long.healthCycle lg0 0 [poolA90] [staleSnapA] ≠ [staleSnapA]
    ∧ Long.pool_snapshot 0 poolA90 ∈ Long.healthCycle lg0 0 [poolA90] [staleSnapA]
    ∧ ∃ p ∈ [poolA90], Long.pool_snapshot 0 poolA90 = Long.pool_snapshot 0 p := by
  have hne : Long.healthCycle lg0 0 [poolA90] [staleSnapA] ≠ [staleSnapA] := by
    rw [eval_cycle_long]
    intro h
    have h1 : Long.pool_snapshot 0 poolA90 = staleSnapA := List.head_eq_of_cons_eq h
    have h2 := congrArg Snap.tvlUsd h1
    norm_num [Long.pool_snapshot, staleSnapA, poolA90, poolA, num] at h2
  have hmem : Long.pool_snapshot 0 poolA90 ∈ Long.healthCycle lg0 0 [poolA90] [staleSnapA] := by
    rw [eval_cycle_long]
    exact List.mem_cons_self _ _
  exact ⟨hne, hmem,
    c10_amended_universe_membership.1 lg0 0 [poolA90] [staleSnapA] _ hne hmem⟩
